import Mathlib

/-!
Shallow embedding of the `clap-io` stream-selector library (src/lib.rs).

The library classifies a command-line token into one of three `Stream`
variants (`File`, `Stdin`, `Stdout`), wraps the union in two direction
types `Input` and `Output`, and opens the selected stream on demand.

Modelling conventions:
- OS strings and paths are modelled as Lean `String`s.
- The ambient terminal state queried by `atty` at construction time is
  passed explicitly as an `Env` record.
- The filesystem open/create call is modelled as a function
  `Fs : String → Except IoError String` supplied by the caller; the
  returned `String` stands for the opened file handle.
- Rust `unreachable!` and a panicking `unwrap` are modelled as the
  `fatal` outcome of `OpenResult`.
- `std::convert::Infallible` is modelled as `Empty`.
-/

namespace ClapIo

/-- The stdio marker constant `STDIO` from lib.rs. -/
def STDIO : String := "-"

/-- The stdin alias constant `STDIN` from lib.rs. -/
def STDIN : String := "<stdin>"

/-- The stdout alias constant `STDOUT` from lib.rs. -/
def STDOUT : String := "<stdout>"

/-- Ambient process state at construction time: whether the real standard
input and standard output are attached to a terminal (`atty::is`). -/
structure Env where
  stdinTty : Bool
  stdoutTty : Bool
deriving DecidableEq, Repr

/-- The internal tagged union `enum Stream` of lib.rs. -/
inductive Stream where
  | File (path : String)
  | Stdin (tty : Bool)
  | Stdout (tty : Bool)
deriving DecidableEq, Repr

/-- `Stream::file(path)`. -/
def Stream.file (path : String) : Stream := .File path

/-- `Stream::stdin()`: captures whether real stdin is a terminal. -/
def Stream.stdin (env : Env) : Stream := .Stdin env.stdinTty

/-- `Stream::stdout()`: captures whether real stdout is a terminal. -/
def Stream.stdout (env : Env) : Stream := .Stdout env.stdoutTty

/-- `Stream::is_tty`: the recorded flag for the standard variants, false
for `File`. -/
def Stream.is_tty : Stream → Bool
  | .Stdin tty => tty
  | .Stdout tty => tty
  | .File _ => false

/-- `Stream::path`: the path for the `File` variant, otherwise `None`. -/
def Stream.path : Stream → Option String
  | .File v => some v
  | _ => none

/-- `impl fmt::Display for Stream`: the path display for `File`, the fixed
labels for the standard variants. -/
def Stream.display : Stream → String
  | .File p => p
  | .Stdin _ => STDIN
  | .Stdout _ => STDOUT

/-- `impl From<Stream> for OsString`: the path for `File`, the fixed labels
for the standard variants. -/
def Stream.toOsString : Stream → String
  | .File p => p
  | .Stdin _ => STDIN
  | .Stdout _ => STDOUT

/-- An `std::io::Error`: a kind plus a message. -/
structure IoError where
  kind : String
  msg : String
deriving DecidableEq, Repr

/-- Model of the filesystem call used by `open_file` (`File::open` for
input, `File::create` for output): maps a path to a handle or an error. -/
def Fs : Type := String → Except IoError String

/-- Outcome of the consuming `open` operation: a stream handle, an io
error, or a fatal panic (`unreachable!` or a failed `unwrap`). -/
inductive OpenResult (α : Type) where
  | ok (v : α)
  | err (e : IoError)
  | fatal (msg : String)
deriving DecidableEq, Repr

/-- Whether an `OpenResult` is the fatal (panic) outcome. -/
def OpenResult.isFatal : OpenResult α → Bool
  | .fatal _ => true
  | _ => false

/-- The handle returned by `Input::open`: a file or the stdin lock. -/
inductive ReadHandle where
  | file (f : String)
  | stdinLock
deriving DecidableEq, Repr

/-- The handle returned by `Output::open`: a file or the stdout lock. -/
inductive WriteHandle where
  | file (f : String)
  | stdoutLock
deriving DecidableEq, Repr

/-- `pub struct Input(Stream)`. -/
structure Input where
  stream : Stream
deriving DecidableEq, Repr

/-- `impl From<&OsStr> for Input`: `-` and `<stdin>` select stdin,
anything else becomes a file path verbatim. -/
def Input.fromOsStr (env : Env) (s : String) : Input :=
  if s = STDIO ∨ s = STDIN then ⟨Stream.stdin env⟩ else ⟨Stream.file s⟩

/-- `impl FromStr for Input` with `Err = Infallible` (modelled as
`Empty`): delegates to the `From<&OsStr>` conversion. -/
def Input.from_str (env : Env) (s : String) : Except Empty Input :=
  .ok (Input.fromOsStr env s)

/-- `impl Default for Input`: stdin. -/
def Input.default (env : Env) : Input := ⟨Stream.stdin env⟩

/-- `Input::is_tty`. -/
def Input.is_tty (i : Input) : Bool := i.stream.is_tty

/-- `Input::path`. -/
def Input.path (i : Input) : Option String := i.stream.path

/-- `impl fmt::Display for Input`: delegates to the inner stream. -/
def Input.display (i : Input) : String := i.stream.display

/-- `impl From<Input> for OsString`: delegates to the inner stream. -/
def Input.toOsString (i : Input) : String := i.stream.toOsString

/-- `Input::open_stdin`: the locked stdin handle (modelled as `Unit`)
when the variant is `Stdin`, otherwise `Err` carrying the value back. -/
def Input.open_stdin (i : Input) : Except Input Unit :=
  match i.stream with
  | .Stdin _ => .ok ()
  | _ => .error i

/-- `Input::open_file` against a filesystem model `fs`: `None` unless the
variant is `File`; on an fs error, wraps it with the direction label, the
literal path and the cause, preserving the error kind. -/
def Input.open_file (fs : Fs) (i : Input) : Option (Except IoError String) :=
  match i.stream with
  | .File path =>
    match fs path with
    | .ok file => some (.ok file)
    | .error e => some (.error ⟨e.kind,
        "Failed to open input file `" ++ path ++ "`. Cause: " ++ e.msg⟩)
  | _ => none

/-- `Input::open`: dispatch on the variant; the `Stdout` arm is the
`unreachable!("stdout is an output")` branch, and a failed `unwrap` of
`open_file`/`open_stdin` is likewise fatal. -/
def Input.openStream (fs : Fs) (i : Input) : OpenResult ReadHandle :=
  match i.stream with
  | .File _ =>
    match Input.open_file fs i with
    | some (.ok f) => .ok (.file f)
    | some (.error e) => .err e
    | none => .fatal "unwrap of None"
  | .Stdin _ =>
    match Input.open_stdin i with
    | .ok _ => .ok .stdinLock
    | .error _ => .fatal "unwrap of Err"
  | .Stdout _ => .fatal "stdout is an output"

/-- `pub struct Output(Stream)`. -/
structure Output where
  stream : Stream
deriving DecidableEq, Repr

/-- `impl From<&OsStr> for Output`: `-` and `<stdout>` select stdout,
anything else becomes a file path verbatim. -/
def Output.fromOsStr (env : Env) (s : String) : Output :=
  if s = STDIO ∨ s = STDOUT then ⟨Stream.stdout env⟩ else ⟨Stream.file s⟩

/-- `impl FromStr for Output` with `Err = Infallible` (modelled as
`Empty`): delegates to the `From<&OsStr>` conversion. -/
def Output.from_str (env : Env) (s : String) : Except Empty Output :=
  .ok (Output.fromOsStr env s)

/-- `impl Default for Output`: stdout. -/
def Output.default (env : Env) : Output := ⟨Stream.stdout env⟩

/-- `Output::is_tty`. -/
def Output.is_tty (o : Output) : Bool := o.stream.is_tty

/-- `Output::path`. -/
def Output.path (o : Output) : Option String := o.stream.path

/-- `impl fmt::Display for Output`: delegates to the inner stream. -/
def Output.display (o : Output) : String := o.stream.display

/-- `impl From<Output> for OsString`: delegates to the inner stream. -/
def Output.toOsString (o : Output) : String := o.stream.toOsString

/-- `Output::open_stdout`: the locked stdout handle (modelled as `Unit`)
when the variant is `Stdout`, otherwise `Err` carrying the value back. -/
def Output.open_stdout (o : Output) : Except Output Unit :=
  match o.stream with
  | .Stdout _ => .ok ()
  | _ => .error o

/-- `Output::open_file` against a filesystem model `fs` (standing for
`File::create`): `None` unless the variant is `File`; on an fs error,
wraps it with the direction label, the literal path and the cause,
preserving the error kind. -/
def Output.open_file (fs : Fs) (o : Output) : Option (Except IoError String) :=
  match o.stream with
  | .File path =>
    match fs path with
    | .ok file => some (.ok file)
    | .error e => some (.error ⟨e.kind,
        "Failed to open output file `" ++ path ++ "`. Cause: " ++ e.msg⟩)
  | _ => none

/-- `Output::open`: dispatch on the variant; the `Stdin` arm is the
`unreachable!("stdin is an input")` branch, and a failed `unwrap` of
`open_file`/`open_stdout` is likewise fatal. -/
def Output.openStream (fs : Fs) (o : Output) : OpenResult WriteHandle :=
  match o.stream with
  | .File _ =>
    match Output.open_file fs o with
    | some (.ok f) => .ok (.file f)
    | some (.error e) => .err e
    | none => .fatal "unwrap of None"
  | .Stdout _ =>
    match Output.open_stdout o with
    | .ok _ => .ok .stdoutLock
    | .error _ => .fatal "unwrap of Err"
  | .Stdin _ => .fatal "stdin is an input"

/-- An `Input` is constructed when it arises from `From<&OsStr>`,
`FromStr`, or `Default` under some ambient environment. -/
def Input.Constructed (i : Input) : Prop :=
  (∃ env s, i = Input.fromOsStr env s) ∨
  (∃ env s, Input.from_str env s = .ok i) ∨
  (∃ env, i = Input.default env)

/-- An `Output` is constructed when it arises from `From<&OsStr>`,
`FromStr`, or `Default` under some ambient environment. -/
def Output.Constructed (o : Output) : Prop :=
  (∃ env s, o = Output.fromOsStr env s) ∨
  (∃ env s, Output.from_str env s = .ok o) ∨
  (∃ env, o = Output.default env)

/-- The string `sub` occurs verbatim inside `s`. -/
def containsStr (s sub : String) : Prop := sub.data <:+: s.data

/-- Any constructed `Input` holds either the `Stdin` or the `File`
variant. -/
theorem Input.constructed_stdin_or_file (i : Input) (h : i.Constructed) :
    (∃ t, i.stream = Stream.Stdin t) ∨ (∃ p, i.stream = Stream.File p) := by
  have hrep : ∃ env s, i = Input.fromOsStr env s := by
    rcases h with ⟨env, s, rfl⟩ | ⟨env, s, hs⟩ | ⟨env, rfl⟩
    · exact ⟨env, s, rfl⟩
    · simp only [Input.from_str, Except.ok.injEq] at hs
      exact ⟨env, s, hs.symm⟩
    · exact ⟨env, STDIO, by simp [Input.fromOsStr, Input.default, STDIO]⟩
  rcases hrep with ⟨env, s, rfl⟩
  by_cases hs : s = STDIO ∨ s = STDIN
  · exact Or.inl ⟨env.stdinTty, by simp [Input.fromOsStr, hs, Stream.stdin]⟩
  · exact Or.inr ⟨s, by simp [Input.fromOsStr, hs, Stream.file]⟩

/-- Any constructed `Output` holds either the `Stdout` or the `File`
variant. -/
theorem Output.constructed_stdout_or_file (o : Output) (h : o.Constructed) :
    (∃ t, o.stream = Stream.Stdout t) ∨ (∃ p, o.stream = Stream.File p) := by
  have hrep : ∃ env s, o = Output.fromOsStr env s := by
    rcases h with ⟨env, s, rfl⟩ | ⟨env, s, hs⟩ | ⟨env, rfl⟩
    · exact ⟨env, s, rfl⟩
    · simp only [Output.from_str, Except.ok.injEq] at hs
      exact ⟨env, s, hs.symm⟩
    · exact ⟨env, STDIO, by simp [Output.fromOsStr, Output.default, STDIO]⟩
  rcases hrep with ⟨env, s, rfl⟩
  by_cases hs : s = STDIO ∨ s = STDOUT
  · exact Or.inl ⟨env.stdoutTty, by simp [Output.fromOsStr, hs, Stream.stdout]⟩
  · exact Or.inr ⟨s, by simp [Output.fromOsStr, hs, Stream.file]⟩

/-- A constructed `Input` never holds the `Stdout` variant. -/
theorem Input.not_stdout_of_constructed (i : Input) (h : i.Constructed) :
    ∀ t, i.stream ≠ Stream.Stdout t := by
  intro t ht
  rcases Input.constructed_stdin_or_file i h with ⟨u, hu⟩ | ⟨p, hp⟩
  · rw [ht] at hu; exact Stream.noConfusion hu
  · rw [ht] at hp; exact Stream.noConfusion hp

/-- A constructed `Output` never holds the `Stdin` variant. -/
theorem Output.not_stdin_of_constructed (o : Output) (h : o.Constructed) :
    ∀ t, o.stream ≠ Stream.Stdin t := by
  intro t ht
  rcases Output.constructed_stdout_or_file o h with ⟨u, hu⟩ | ⟨p, hp⟩
  · rw [ht] at hu; exact Stream.noConfusion hu
  · rw [ht] at hp; exact Stream.noConfusion hp

/-- `Input::open` is never fatal on a value that does not hold the
`Stdout` variant. -/
theorem Input.open_no_fatal_of_not_stdout (fs : Fs) (i : Input)
    (h : ∀ t, i.stream ≠ Stream.Stdout t) :
    (Input.openStream fs i).isFatal = false := by
  obtain ⟨s⟩ := i
  cases s with
  | File p =>
    cases hfp : fs p <;>
      simp [Input.openStream, Input.open_file, hfp, OpenResult.isFatal]
  | Stdin t => rfl
  | Stdout t => exact absurd rfl (h t)

/-- `Output::open` is never fatal on a value that does not hold the
`Stdin` variant. -/
theorem Output.open_no_fatal_of_not_stdin (fs : Fs) (o : Output)
    (h : ∀ t, o.stream ≠ Stream.Stdin t) :
    (Output.openStream fs o).isFatal = false := by
  obtain ⟨s⟩ := o
  cases s with
  | File p =>
    cases hfp : fs p <;>
      simp [Output.openStream, Output.open_file, hfp, OpenResult.isFatal]
  | Stdout t => rfl
  | Stdin t => exact absurd rfl (h t)

/-- C1: a constructed `Input` never holds the `Stdout` variant and a
constructed `Output` never holds the `Stdin` variant, so the fatal
`unreachable` branches of `Input::open` and `Output::open` (and the
fatal `unwrap`s) are never taken for constructed values, whatever the
filesystem does. -/
theorem c1_no_impossible_variant (i : Input) (hi : i.Constructed)
    (o : Output) (ho : o.Constructed) :
    (∀ t, i.stream ≠ Stream.Stdout t) ∧ (∀ t, o.stream ≠ Stream.Stdin t) ∧
    (∀ fs, (Input.openStream fs i).isFatal = false) ∧
    (∀ fs, (Output.openStream fs o).isFatal = false) := by
  have h1 := Input.not_stdout_of_constructed i hi
  have h2 := Output.not_stdin_of_constructed o ho
  exact ⟨h1, h2, fun fs => Input.open_no_fatal_of_not_stdout fs i h1,
    fun fs => Output.open_no_fatal_of_not_stdin fs o h2⟩

/-- C1 witness: instantiated at `Input` from token `x` and `Output` from
token `y`, with a filesystem that succeeds. -/
theorem c1_witness :
    (ClapIo.Input.fromOsStr ⟨false, false⟩ "x").stream ≠ Stream.Stdout false ∧
    (ClapIo.Output.fromOsStr ⟨false, false⟩ "y").stream ≠ Stream.Stdin false ∧
    (Input.openStream (fun p => .ok p)
      (Input.fromOsStr ⟨false, false⟩ "x")).isFatal = false ∧
    (Output.openStream (fun p => .ok p)
      (Output.fromOsStr ⟨false, false⟩ "y")).isFatal = false := by
  have h := c1_no_impossible_variant (Input.fromOsStr ⟨false, false⟩ "x")
    (Or.inl ⟨⟨false, false⟩, "x", rfl⟩)
    (Output.fromOsStr ⟨false, false⟩ "y")
    (Or.inl ⟨⟨false, false⟩, "y", rfl⟩)
  exact ⟨h.1 false, h.2.1 false, h.2.2.1 _, h.2.2.2 _⟩

/-- C2: the token `-` selects the standard-stream variant of the
respective direction: `Stdin` for `Input`, `Stdout` for `Output`,
capturing the ambient terminal flag. -/
theorem c2_dash_token (env : Env) :
    (Input.fromOsStr env STDIO).stream = Stream.Stdin env.stdinTty ∧
    (Output.fromOsStr env STDIO).stream = Stream.Stdout env.stdoutTty := by
  constructor <;>
    simp [Input.fromOsStr, Output.fromOsStr, Stream.stdin, Stream.stdout]

/-- C3: a token other than `-` and the direction's own alias becomes the
`File` variant with the path set verbatim, and `Display` round-trips to
exactly the original token; in particular any token outside the set of
markers yields `File(token)` for both directions. -/
theorem c3_file_verbatim (env : Env) (s : String) :
    (s ≠ STDIO → s ≠ STDIN →
      (Input.fromOsStr env s).stream = Stream.File s ∧
      (Input.fromOsStr env s).display = s) ∧
    (s ≠ STDIO → s ≠ STDOUT →
      (Output.fromOsStr env s).stream = Stream.File s ∧
      (Output.fromOsStr env s).display = s) := by
  constructor <;> intro h1 h2 <;>
    simp [Input.fromOsStr, Output.fromOsStr, h1, h2, Stream.file,
      Input.display, Output.display, Stream.display]

/-- C3 witness: the token `data.txt` yields `File "data.txt"` in both
directions and displays verbatim. -/
theorem c3_witness :
    (Input.fromOsStr ⟨false, false⟩ "data.txt").stream =
        Stream.File "data.txt" ∧
    (Input.fromOsStr ⟨false, false⟩ "data.txt").display = "data.txt" ∧
    (Output.fromOsStr ⟨false, false⟩ "data.txt").stream =
        Stream.File "data.txt" ∧
    (Output.fromOsStr ⟨false, false⟩ "data.txt").display = "data.txt" := by
  have h := c3_file_verbatim ⟨false, false⟩ "data.txt"
  have h1 := h.1 (by decide) (by decide)
  have h2 := h.2 (by decide) (by decide)
  exact ⟨h1.1, h1.2, h2.1, h2.2⟩

/-- C4: with the token absent, `Input` defaults to the `Stdin` variant
and `Output` to the `Stdout` variant, and the rendering of these
defaults (the `OsString` conversion used for help text, and `Display`)
is the non-empty fixed label of the direction. -/
theorem c4_defaults (env : Env) :
    (Input.default env).stream = Stream.Stdin env.stdinTty ∧
    (Output.default env).stream = Stream.Stdout env.stdoutTty ∧
    (Input.default env).toOsString = STDIN ∧
    (Output.default env).toOsString = STDOUT ∧
    (Input.default env).display = STDIN ∧
    (Output.default env).display = STDOUT ∧
    (Input.default env).toOsString.isEmpty = false ∧
    (Output.default env).toOsString.isEmpty = false := by
  refine ⟨rfl, rfl, rfl, rfl, rfl, rfl, ?_, ?_⟩ <;> rfl

/-- C5 counterexample: the present-but-empty token is classified as
`File ""`, not as the `Stdin` variant. -/
theorem c5_counterexample :
    (Input.fromOsStr ⟨false, false⟩ "").stream = Stream.File "" ∧
    Stream.File "" ≠ Stream.Stdin false ∧
    Stream.File "" ≠ Stream.Stdin true := by
  refine ⟨?_, by decide, by decide⟩
  simp [Input.fromOsStr, STDIO, STDIN, Stream.file]

/-- C5 amended: constructing an `Input` from a present but empty token
produces the `File` variant with the empty path, unlike an omitted token
or the `-` marker which select `Stdin`. -/
theorem c5_empty_token_is_file (env : Env) :
    (Input.fromOsStr env "").stream = Stream.File "" ∧
    (Input.fromOsStr env STDIO).stream = Stream.Stdin env.stdinTty ∧
    (Input.default env).stream = Stream.Stdin env.stdinTty := by
  refine ⟨?_, ?_, rfl⟩ <;>
    simp [Input.fromOsStr, STDIO, STDIN, Stream.file, Stream.stdin]

/-- C6: when the filesystem call fails, `open_file` wraps the error with
a message embedding the direction label, the literal path, and the
underlying cause, and the wrapped error keeps the underlying kind (the
equalities exhibit `kind := e.kind`). -/
theorem c6_error_message (fs : Fs) (p : String) (e : IoError)
    (hfs : fs p = .error e) :
    (Input.open_file fs ⟨Stream.File p⟩ = some (.error ⟨e.kind,
      "Failed to open input file `" ++ p ++ "`. Cause: " ++ e.msg⟩) ∧
     containsStr
       ("Failed to open input file `" ++ p ++ "`. Cause: " ++ e.msg)
       "input" ∧
     containsStr
       ("Failed to open input file `" ++ p ++ "`. Cause: " ++ e.msg) p ∧
     containsStr
       ("Failed to open input file `" ++ p ++ "`. Cause: " ++ e.msg)
       e.msg) ∧
    (Output.open_file fs ⟨Stream.File p⟩ = some (.error ⟨e.kind,
      "Failed to open output file `" ++ p ++ "`. Cause: " ++ e.msg⟩) ∧
     containsStr
       ("Failed to open output file `" ++ p ++ "`. Cause: " ++ e.msg)
       "output" ∧
     containsStr
       ("Failed to open output file `" ++ p ++ "`. Cause: " ++ e.msg) p ∧
     containsStr
       ("Failed to open output file `" ++ p ++ "`. Cause: " ++ e.msg)
       e.msg) := by
  refine ⟨⟨?_, ?_, ?_, ?_⟩, ⟨?_, ?_, ?_, ?_⟩⟩
  · simp [Input.open_file, hfs]
  · have h1 : "input".data <:+: "Failed to open input file `".data := by
      decide
    have h2 : "Failed to open input file `".data <:+:
        ("Failed to open input file `" ++ p ++ "`. Cause: " ++ e.msg).data :=
      ⟨[], p.data ++ "`. Cause: ".data ++ e.msg.data,
        by simp [String.data_append]⟩
    exact h1.trans h2
  · exact ⟨"Failed to open input file `".data,
      "`. Cause: ".data ++ e.msg.data, by simp [String.data_append]⟩
  · exact ⟨"Failed to open input file `".data ++ p.data ++ "`. Cause: ".data,
      [], by simp [String.data_append]⟩
  · simp [Output.open_file, hfs]
  · have h1 : "output".data <:+: "Failed to open output file `".data := by
      decide
    have h2 : "Failed to open output file `".data <:+:
        ("Failed to open output file `" ++ p ++ "`. Cause: " ++ e.msg).data :=
      ⟨[], p.data ++ "`. Cause: ".data ++ e.msg.data,
        by simp [String.data_append]⟩
    exact h1.trans h2
  · exact ⟨"Failed to open output file `".data,
      "`. Cause: ".data ++ e.msg.data, by simp [String.data_append]⟩
  · exact ⟨"Failed to open output file `".data ++ p.data ++ "`. Cause: ".data,
      [], by simp [String.data_append]⟩

/-- C6 witness: a filesystem that always reports `NotFound` on path
`missing.txt`. -/
theorem c6_witness :
    Input.open_file (fun _ => Except.error ⟨"NotFound", "No such file"⟩)
        ⟨Stream.File "missing.txt"⟩ =
      some (Except.error ⟨"NotFound",
        "Failed to open input file `" ++ "missing.txt" ++ "`. Cause: " ++
          "No such file"⟩) ∧
    containsStr
      ("Failed to open input file `" ++ "missing.txt" ++ "`. Cause: " ++
        "No such file") "input" ∧
    containsStr
      ("Failed to open input file `" ++ "missing.txt" ++ "`. Cause: " ++
        "No such file") "missing.txt" := by
  have h := c6_error_message (fun _ => Except.error ⟨"NotFound", "No such file"⟩)
    "missing.txt" ⟨"NotFound", "No such file"⟩ rfl
  exact ⟨h.1.1, h.1.2.1, h.1.2.2.1⟩

/-- C7: construction from a string token is infallible (`from_str`
always returns `Ok` of the `From<&OsStr>` conversion, for both
directions), and the only operation that can surface an io error is
`open` on a value holding the `File` variant. -/
theorem c7_infallible_construction :
    (∀ env s, Input.from_str env s = Except.ok (Input.fromOsStr env s)) ∧
    (∀ env s, Output.from_str env s = Except.ok (Output.fromOsStr env s)) ∧
    (∀ fs i e, Input.openStream fs i = OpenResult.err e →
      ∃ p, i.stream = Stream.File p) ∧
    (∀ fs o e, Output.openStream fs o = OpenResult.err e →
      ∃ p, o.stream = Stream.File p) := by
  refine ⟨fun env s => rfl, fun env s => rfl, ?_, ?_⟩
  · intro fs i e h
    obtain ⟨s⟩ := i
    cases s with
    | File p => exact ⟨p, rfl⟩
    | Stdin t => exact absurd h (by simp [Input.openStream, Input.open_stdin])
    | Stdout t => exact absurd h (by simp [Input.openStream])
  · intro fs o e h
    obtain ⟨s⟩ := o
    cases s with
    | File p => exact ⟨p, rfl⟩
    | Stdout t => exact absurd h (by simp [Output.openStream, Output.open_stdout])
    | Stdin t => exact absurd h (by simp [Output.openStream])

/-- C7 witness: concrete tokens, plus a concrete failing filesystem
showing that an `err` outcome forces the `File` variant. -/
theorem c7_witness :
    Input.from_str ⟨false, false⟩ "x" =
      Except.ok (Input.fromOsStr ⟨false, false⟩ "x") ∧
    Output.from_str ⟨false, false⟩ "y" =
      Except.ok (Output.fromOsStr ⟨false, false⟩ "y") ∧
    (∃ p, (Input.mk (Stream.File "f")).stream = Stream.File p) ∧
    (∃ p, (Output.mk (Stream.File "g")).stream = Stream.File p) := by
  refine ⟨c7_infallible_construction.1 ⟨false, false⟩ "x",
    c7_infallible_construction.2.1 ⟨false, false⟩ "y",
    c7_infallible_construction.2.2.1 (fun _ => .error ⟨"k", "m"⟩)
      ⟨Stream.File "f"⟩
      ⟨"k", "Failed to open input file `" ++ "f" ++ "`. Cause: " ++ "m"⟩
      rfl,
    c7_infallible_construction.2.2.2 (fun _ => .error ⟨"k", "m"⟩)
      ⟨Stream.File "g"⟩
      ⟨"k", "Failed to open output file `" ++ "g" ++ "`. Cause: " ++ "m"⟩
      rfl⟩

/-- C8: `is_tty` is false for every `File` selector regardless of path,
equals the terminal flag captured at construction for the default
(standard-stream) values, and is true only for a standard-stream variant
whose recorded flag is true. -/
theorem c8_is_tty_semantics :
    (∀ p, (Stream.File p).is_tty = false) ∧
    (∀ p, (Input.mk (Stream.File p)).is_tty = false) ∧
    (∀ p, (Output.mk (Stream.File p)).is_tty = false) ∧
    (∀ env, (Input.default env).is_tty = env.stdinTty) ∧
    (∀ env, (Output.default env).is_tty = env.stdoutTty) ∧
    (∀ s : Stream, s.is_tty = true →
      s = Stream.Stdin true ∨ s = Stream.Stdout true) := by
  refine ⟨fun p => rfl, fun p => rfl, fun p => rfl,
    fun env => rfl, fun env => rfl, ?_⟩
  intro s h
  cases s with
  | File p => exact absurd h (by simp [Stream.is_tty])
  | Stdin t =>
    cases t with
    | true => exact Or.inl rfl
    | false => exact absurd h (by decide)
  | Stdout t =>
    cases t with
    | true => exact Or.inr rfl
    | false => exact absurd h (by decide)

/-- C8 witness: a file selector is not a tty, and a true `is_tty` value
forces a standard variant with flag true. -/
theorem c8_witness :
    (Stream.File "p").is_tty = false ∧
    (Stream.Stdin true = Stream.Stdin true ∨
      Stream.Stdin true = Stream.Stdout true) :=
  ⟨c8_is_tty_semantics.1 "p",
    c8_is_tty_semantics.2.2.2.2.2 (Stream.Stdin true) rfl⟩

/-- C9: `path` is `some` exactly on the `File` variant, returning the
constructed path, and `none` on both standard variants; the `Input` and
`Output` accessors delegate to the inner stream. -/
theorem c9_path_iff_file :
    (∀ p, (Stream.File p).path = some p) ∧
    (∀ t, (Stream.Stdin t).path = none) ∧
    (∀ t, (Stream.Stdout t).path = none) ∧
    (∀ i : Input, i.path = i.stream.path) ∧
    (∀ o : Output, o.path = o.stream.path) ∧
    (∀ s : Stream, (∃ p, s.path = some p) ↔ (∃ p, s = Stream.File p)) := by
  refine ⟨fun p => rfl, fun t => rfl, fun t => rfl,
    fun i => rfl, fun o => rfl, ?_⟩
  intro s
  constructor
  · rintro ⟨p, hp⟩
    cases s with
    | File q => exact ⟨q, rfl⟩
    | Stdin t => exact absurd hp (by simp [Stream.path])
    | Stdout t => exact absurd hp (by simp [Stream.path])
  · rintro ⟨p, rfl⟩
    exact ⟨p, rfl⟩

/-- C9 witness: the file selector with path `p` has `path = some p` and
satisfies the characterisation. -/
theorem c9_witness :
    (Stream.File "p").path = some "p" ∧
    (∃ q, Stream.File "p" = Stream.File q) :=
  ⟨c9_path_iff_file.1 "p",
    (c9_path_iff_file.2.2.2.2.2 (Stream.File "p")).mp ⟨"p", rfl⟩⟩

/-- C10: on a non-`Stdin` variant `open_stdin` returns `Err` carrying
the original value unchanged (symmetrically for `open_stdout`), and on a
non-`File` variant `open_file` returns `None` whatever the filesystem
does (no filesystem operation is performed). -/
theorem c10_wrong_variant (i : Input) (o : Output) :
    ((∀ t, i.stream ≠ Stream.Stdin t) →
      Input.open_stdin i = Except.error i) ∧
    ((∀ t, o.stream ≠ Stream.Stdout t) →
      Output.open_stdout o = Except.error o) ∧
    ((∀ p, i.stream ≠ Stream.File p) →
      ∀ fs, Input.open_file fs i = none) ∧
    ((∀ p, o.stream ≠ Stream.File p) →
      ∀ fs, Output.open_file fs o = none) := by
  obtain ⟨si⟩ := i
  obtain ⟨so⟩ := o
  refine ⟨?_, ?_, ?_, ?_⟩
  · intro h
    cases si with
    | Stdin t => exact absurd rfl (h t)
    | File p => rfl
    | Stdout t => rfl
  · intro h
    cases so with
    | Stdout t => exact absurd rfl (h t)
    | File p => rfl
    | Stdin t => rfl
  · intro h fs
    cases si with
    | File p => exact absurd rfl (h p)
    | Stdin t => rfl
    | Stdout t => rfl
  · intro h fs
    cases so with
    | File p => exact absurd rfl (h p)
    | Stdin t => rfl
    | Stdout t => rfl

/-- C10 witness: concrete wrong-variant values. -/
theorem c10_witness :
    Input.open_stdin ⟨Stream.Stdout false⟩ =
      Except.error ⟨Stream.Stdout false⟩ ∧
    Output.open_stdout ⟨Stream.Stdin false⟩ =
      Except.error ⟨Stream.Stdin false⟩ ∧
    Input.open_file (fun q => Except.ok q) ⟨Stream.Stdout false⟩ = none ∧
    Output.open_file (fun q => Except.ok q) ⟨Stream.Stdin false⟩ = none := by
  have h := c10_wrong_variant ⟨Stream.Stdout false⟩ ⟨Stream.Stdin false⟩
  exact ⟨h.1 (fun t ht => Stream.noConfusion ht),
    h.2.1 (fun t ht => Stream.noConfusion ht),
    h.2.2.1 (fun p hp => Stream.noConfusion hp) _,
    h.2.2.2 (fun p hp => Stream.noConfusion hp) _⟩

end ClapIo
